import Mathlib

/-!
Shallow embedding of the NWSL database-migration extraction scripts.

Each definition mirrors one Python function of the repository:
  * `extract_comprehensive_lineups_v3.py` — caption-based team identification,
    the starter heuristic, the goalkeeper-table de-duplication pass, and the
    `insert_lineups` writer.
  * `extract_goalkeeper_data_accurate.py` — `clean_numeric_value`, the
    `COLUMN_MAPPING` row mapper, `validate_goalkeeper_data`, and
    `upsert_goalkeeper_data`, plus the per-record step of `process_html_file`.
  * `extract_fbref_possession_full.py` — cell cleaning, value coercion and
    `upsert_possession_data`.
  * `extract_tier1_data.py` — `_parse_minute` and the per-record skip logic of
    `insert_goalkeeper_records`.
  * `extract_shot_data_complete.py` — `parse_minute`.

Machine floats of the source are modelled by `Rat`; Python `None` by `Option`;
database tables by lists of row structures.
-/

namespace NwslDb

/-! ### Python string primitives

Modelled structurally over `List Char` (the core `String` functions use
well-founded recursion and do not reduce inside the kernel). -/

/-- `sub` is a prefix of `l` (character lists). -/
def isPrefixL : List Char → List Char → Bool
  | [], _ => true
  | _ :: _, [] => false
  | a :: as, b :: bs => a == b && isPrefixL as bs

/-- `sub` occurs contiguously inside `l` (character lists). -/
def isInfixL (sub : List Char) : List Char → Bool
  | [] => sub.isEmpty
  | b :: bs => isPrefixL sub (b :: bs) || isInfixL sub bs

/-- Python's substring test `sub in s`. -/
def strContains (s sub : String) : Bool :=
  isInfixL sub.toList s.toList

/-- Python's `str.lower()` (ASCII model). -/
def lowerStr (s : String) : String :=
  String.mk (s.toList.map Char.toLower)

/-- Whitespace-run splitter behind `pySplitWs` (`acc` holds the current word
reversed). -/
def splitWsGo : List Char → List Char → List String
  | [], acc => if acc.isEmpty then [] else [String.mk acc.reverse]
  | c :: cs, acc =>
      if c.isWhitespace then
        if acc.isEmpty then splitWsGo cs []
        else String.mk acc.reverse :: splitWsGo cs []
      else splitWsGo cs (c :: acc)

/-- Python's `str.split()` with no argument: split on whitespace runs,
dropping empty pieces. -/
def pySplitWs (s : String) : List String :=
  splitWsGo s.toList []

/-- Python's `str.split(sep)` for a one-character separator: split at every
occurrence, keeping empty pieces (`"90+".split('+') == ["90", ""]`). -/
def splitOnChar (sep : Char) : List Char → List (List Char)
  | [] => [[]]
  | c :: cs =>
      let r := splitOnChar sep cs
      if c == sep then [] :: r
      else
        match r with
        | h :: t => (c :: h) :: t
        | [] => [[c]]

/-- Strip leading and trailing whitespace (Python's `str.strip()` and the
whitespace tolerance of `float`/`int`). -/
def trimChars (cs : List Char) : List Char :=
  ((cs.dropWhile Char.isWhitespace).reverse.dropWhile Char.isWhitespace).reverse

/-- Decimal value of a digit list (helper for the numeric parsers). -/
def natValL (cs : List Char) : Nat :=
  cs.foldl (fun n c => n * 10 + (c.toNat - 48)) 0

/-- Unsigned part of `float(s)`: digits with at most one dot and at least one
digit. -/
def pyFloatCore (cs : List Char) : Option Rat :=
  match splitOnChar '.' cs with
  | [a] =>
      if a ≠ [] ∧ a.all Char.isDigit then some (natValL a) else none
  | [a, b] =>
      if (a ≠ [] ∨ b ≠ []) ∧ a.all Char.isDigit ∧ b.all Char.isDigit
      then some ((natValL a : Rat) + (natValL b : Rat) / (10 : Rat) ^ b.length)
      else none
  | _ => none

/-- Python's `float(s)` on the plain decimal strings this codebase feeds it:
optional sign, digits, at most one dot, at least one digit; anything else
raises in Python and is `none` here (scientific notation never occurs in the
cleaned inputs). -/
def pyFloat (s : String) : Option Rat :=
  match trimChars s.toList with
  | '-' :: r => (pyFloatCore r).map (fun q => -q)
  | '+' :: r => pyFloatCore r
  | r => pyFloatCore r

/-- Python's `int(s)` on a string: optional sign and digits only. -/
def pyInt (s : String) : Option Int :=
  let core : List Char → Option Int := fun u =>
    if u ≠ [] ∧ u.all Char.isDigit then some (natValL u : Int) else none
  match trimChars s.toList with
  | '-' :: r => (core r).map (fun n => -n)
  | '+' :: r => core r
  | r => core r

/-- Python's `int(x)` on a float: truncation toward zero. -/
def ratTrunc (q : Rat) : Int :=
  if q < 0 then Int.ceil q else Int.floor q

/-- Python truthiness of an optional string (`None` and `""` are falsy). -/
def pyTruthy : Option String → Bool
  | none => false
  | some s => s ≠ ""

/-! ### `extract_comprehensive_lineups_v3.py` -/

/-- The `'home'` / `'away'` strings returned by `identify_team_from_caption`. -/
inductive TeamType where
  | home
  | away
deriving DecidableEq, Repr

/-- `identify_team_from_caption(caption_text, home_team, away_team)`: full team
name containment first (home then away), then any team-name word longer than
three characters (home words before away words), else `None`.  A `None` team
name in the row dict is modelled by the empty string, which the source guards
out the same way (`home_team.lower() if home_team else ""`). -/
def identify_team_from_caption (caption_text home_team away_team : String) :
    Option TeamType :=
  let caption_lower := lowerStr caption_text
  let home_lower := lowerStr home_team
  let away_lower := lowerStr away_team
  if (home_lower != "") && strContains caption_lower home_lower then some .home
  else if (away_lower != "") && strContains caption_lower away_lower then some .away
  else
    let home_words := pySplitWs home_lower
    let away_words := pySplitWs away_lower
    if home_words.any (fun w => decide (3 < w.length) && strContains caption_lower w) then
      some .home
    else if away_words.any (fun w => decide (3 < w.length) && strContains caption_lower w) then
      some .away
    else none

/-- Team resolution for one summary table in `extract_lineup_from_html`:
caption identification when a caption exists, otherwise
`'home' if table_idx == 0 else 'away'`. -/
def resolve_table_team (caption : Option String) (home_team away_team : String)
    (table_idx : Nat) : TeamType :=
  match caption.bind (fun c => identify_team_from_caption c home_team away_team) with
  | some t => t
  | none => if table_idx = 0 then .home else .away

/-- The starter heuristic of `extract_lineup_from_html`:
`is_starter = player_count <= 11`, overridden to `False` when `minutes == 0`
and to `True` when `minutes >= 60 and player_count <= 14`. -/
def is_starter (player_count minutes : Nat) : Bool :=
  if minutes = 0 then false
  else if 60 ≤ minutes ∧ player_count ≤ 14 then true
  else decide (player_count ≤ 11)

/-- One `lineup_entry` dict produced by `extract_lineup_from_html`. -/
structure LineupEntry where
  lineup_id : String
  match_id : String
  player_id : Option String
  player_name : String
  position : Option String
  is_starter : Bool
  team_season_id : Option String
deriving DecidableEq, Repr

/-- What the goalkeeper-table pass reads from one keeper row: the FBref id
parsed from the player link's href (`None` when the regex fails), the player
name, the table's caption text, and the fresh `uuid4` the entry would get. -/
structure KeeperRow where
  player_id : Option String
  player_name : String
  caption : Option String
  fresh_id : String
deriving DecidableEq, Repr

/-- One keeper-table row of the second pass of `extract_lineup_from_html`:
skip when the href regex fails; skip when an entry with this `player_id`
already exists; resolve the team from the caption (no positional fallback
here — unidentified captions `continue`) and append a GK entry. -/
def keeper_step (match_id home_team away_team : String)
    (home_ts away_ts : Option String) (lineups : List LineupEntry)
    (row : KeeperRow) : List LineupEntry :=
  match row.player_id with
  | none => lineups
  | some pid =>
      if lineups.any (fun l => l.player_id == some pid) then lineups
      else
        match row.caption.bind
            (fun c => identify_team_from_caption c home_team away_team) with
        | none => lineups
        | some tt =>
            lineups ++ [{ lineup_id := row.fresh_id
                          match_id := match_id
                          player_id := some pid
                          player_name := row.player_name
                          position := some "GK"
                          is_starter := true
                          team_season_id :=
                            match tt with
                            | .home => home_ts
                            | .away => away_ts }]

/-- The whole goalkeeper-table pass, folded over the keeper rows of the
document, starting from the lineup list built from the summary tables. -/
def keeper_pass (match_id home_team away_team : String)
    (home_ts away_ts : Option String) (lineups : List LineupEntry)
    (rows : List KeeperRow) : List LineupEntry :=
  rows.foldl (keeper_step match_id home_team away_team home_ts away_ts) lineups

/-- `insert_lineups`: `INSERT ... ON CONFLICT (lineup_id) DO NOTHING` for each
entry in order — a row is appended unless a stored row already carries the
same surrogate `lineup_id`. -/
def insert_lineups (db : List LineupEntry) (entries : List LineupEntry) :
    List LineupEntry :=
  entries.foldl
    (fun acc e => if acc.any (fun r => r.lineup_id == e.lineup_id) then acc
                  else acc ++ [e])
    db

/-- The natural key of a lineup row: the match and the player it describes. -/
def lineupNaturalKey (e : LineupEntry) : String × Option String :=
  (e.match_id, e.player_id)

/-! ### `extract_goalkeeper_data_accurate.py` -/

/-- `COLUMN_MAPPING`: FBref `data-stat` names to database columns. -/
def COLUMN_MAPPING : List (String × String) :=
  [("gk_shots_on_target_against", "shots_on_target_against"),
   ("gk_goals_against", "goals_against"),
   ("gk_saves", "saves"),
   ("gk_save_pct", "save_percentage"),
   ("gk_psxg", "post_shot_xg"),
   ("gk_passes_completed_launched", "launched_completed"),
   ("gk_passes_launched", "launched_attempted"),
   ("gk_passes_pct_launched", "launched_completion_pct"),
   ("gk_passes", "passes_attempted"),
   ("gk_passes_throws", "passes_throws"),
   ("gk_pct_passes_launched", "passes_launch_pct"),
   ("gk_passes_length_avg", "passes_avg_length"),
   ("gk_goal_kicks", "goal_kicks_attempted"),
   ("gk_pct_goal_kicks_launched", "goal_kicks_launch_pct"),
   ("gk_goal_kick_length_avg", "goal_kicks_avg_length"),
   ("gk_crosses", "crosses_opposed"),
   ("gk_crosses_stopped", "crosses_stopped"),
   ("gk_crosses_stopped_pct", "crosses_stopped_pct"),
   ("gk_def_actions_outside_pen_area", "sweeper_actions"),
   ("gk_avg_distance_def_actions", "sweeper_avg_distance"),
   ("minutes", "minutes_played")]

/-- The database columns `upsert_goalkeeper_data` may write
(`COLUMN_MAPPING.values()`). -/
def gkColumns : List String := COLUMN_MAPPING.map Prod.snd

/-- `clean_numeric_value` on a cell string: strip every character that is not
a digit, `.` or `-`; an empty remainder is `None`, otherwise `float(...)`,
with a parse failure also `None`. -/
def clean_numeric_value (s : String) : Option Rat :=
  let cleaned := String.mk (s.toList.filter (fun c => c.isDigit || c == '.' || c == '-'))
  if cleaned = "" then none else pyFloat cleaned

/-- The stat-mapping loop of `process_goalkeeper_row`: for each
`(fbref_col, db_col)` of `COLUMN_MAPPING`, `data[db_col] =
clean_numeric_value(row[fbref_col])` when the source column is present.  A
source column absent from the row and a value that cleans to `None` both
leave the canonical field at `none`. -/
def gkMapRow (row : String → Option String) (db_col : String) : Option Rat :=
  match COLUMN_MAPPING.find? (fun p => p.2 == db_col) with
  | some p => (row p.1).bind clean_numeric_value
  | none => none

/-- The fields `validate_goalkeeper_data` reads from the `data` dict. -/
structure GkValData where
  saves : Option Rat
  goals_against : Option Rat
  shots_on_target_against : Option Rat
  save_percentage : Option Rat
  launched_completed : Option Rat
  launched_attempted : Option Rat
  crosses_stopped : Option Rat
  crosses_opposed : Option Rat
deriving DecidableEq, Repr

/-- The four data-quality issues `validate_goalkeeper_data` can append
(message strings are presentation; the tag identifies the inequality). -/
inductive GkIssue where
  | savesIdentity
  | savePctMismatch
  | launchedExceedsAttempted
  | crossesStoppedExceedOpposed
deriving DecidableEq, Repr

/-- First block of `validate_goalkeeper_data`: with saves, goals against and
shots on target against all present, flag
`|saves + goals_against - shots_on_target_against| > 0.01`. -/
def gkCheckSaves (d : GkValData) : List GkIssue :=
  match d.saves, d.goals_against, d.shots_on_target_against with
  | some s, some g, some t =>
      if |s + g - t| > 1/100 then [GkIssue.savesIdentity] else []
  | _, _, _ => []

/-- Second block: the recomputed save percentage must agree within `0.5`
when `shots_on_target_against > 0`. -/
def gkCheckSavePct (d : GkValData) : List GkIssue :=
  match d.shots_on_target_against, d.goals_against, d.save_percentage with
  | some t, some g, some p =>
      if t > 0 then
        if |(t - g) / t * 100 - p| > 1/2 then [GkIssue.savePctMismatch] else []
      else []
  | _, _, _ => []

/-- Third block: launched passes completed may not exceed attempted. -/
def gkCheckLaunched (d : GkValData) : List GkIssue :=
  match d.launched_completed, d.launched_attempted with
  | some c, some a => if c > a then [GkIssue.launchedExceedsAttempted] else []
  | _, _ => []

/-- Fourth block: crosses stopped may not exceed crosses opposed. -/
def gkCheckCrosses (d : GkValData) : List GkIssue :=
  match d.crosses_stopped, d.crosses_opposed with
  | some s, some o => if s > o then [GkIssue.crossesStoppedExceedOpposed] else []
  | _, _ => []

/-- `validate_goalkeeper_data`: the four blocks in source order; the returned
`is_valid` flag is the emptiness of this issue list. -/
def validate_goalkeeper_data (d : GkValData) : List GkIssue :=
  gkCheckSaves d ++ gkCheckSavePct d ++ gkCheckLaunched d ++ gkCheckCrosses d

/-- One canonical goalkeeper record assembled by `process_goalkeeper_row`:
the key columns plus the mapped stat dict (`none` = absent or SQL NULL). -/
structure GkRecord where
  match_id : String
  player_id : String
  team_season_id : Option String
  stats : String → Option Rat

/-- One stored row of `match_goalkeeper_performance`. -/
structure GkRow where
  match_id : String
  player_id : String
  team_season_id : Option String
  stats : String → Option Rat

/-- The `WHERE match_id = ... AND player_id = ...` existence test. -/
def gkKeyMatch (r : GkRecord) (row : GkRow) : Bool :=
  row.match_id == r.match_id && row.player_id == r.player_id

/-- `update_fields` is empty: no mapped column of the record carries a
non-null value (the function then returns without touching the database). -/
def gkNoData (r : GkRecord) : Bool :=
  gkColumns.all (fun c => (r.stats c).isNone)

/-- The `UPDATE ... SET` merge: a mapped column with a non-null new value is
overwritten, every other column keeps its stored value. -/
def gkMergeRow (row : GkRow) (r : GkRecord) : GkRow :=
  { row with stats := fun c =>
      if c ∈ gkColumns ∧ (r.stats c).isSome then r.stats c else row.stats c }

/-- The `INSERT` path: key columns plus the non-null mapped columns; columns
left out of the insert list are NULL in the stored row. -/
def gkInsertRow (r : GkRecord) : GkRow :=
  { match_id := r.match_id
    player_id := r.player_id
    team_season_id := r.team_season_id
    stats := fun c => if c ∈ gkColumns then r.stats c else none }

/-- `upsert_goalkeeper_data`: return unchanged when no mapped column has a
non-null value; otherwise update every row matching `(match_id, player_id)`
in place when one exists, else insert a new row. -/
def upsert_goalkeeper_data (db : List GkRow) (r : GkRecord) : List GkRow :=
  if gkNoData r then db
  else if db.any (gkKeyMatch r) then
    db.map (fun row => if gkKeyMatch r row then gkMergeRow row r else row)
  else db ++ [gkInsertRow r]

/-- The validation view of a record's mapped stats. -/
def gkValOf (r : GkRecord) : GkValData :=
  { saves := r.stats "saves"
    goals_against := r.stats "goals_against"
    shots_on_target_against := r.stats "shots_on_target_against"
    save_percentage := r.stats "save_percentage"
    launched_completed := r.stats "launched_completed"
    launched_attempted := r.stats "launched_attempted"
    crosses_stopped := r.stats "crosses_stopped"
    crosses_opposed := r.stats "crosses_opposed" }

/-- The per-file counters of `process_html_file` that the per-record step
touches. -/
structure GkStats where
  goalkeepers_extracted : Nat
  records_updated : Nat
  validation_errors : Nat
  errors : Nat
deriving DecidableEq, Repr

/-- The per-record tail of `process_html_file`: count the extraction,
validate (a failure only increments `validation_errors`), then upsert
whenever a `team_season_id` is present — explicitly also when validation
failed — else record an error and leave the database alone. -/
def process_gk_record (db : List GkRow) (st : GkStats) (r : GkRecord) :
    List GkRow × GkStats :=
  let st := { st with goalkeepers_extracted := st.goalkeepers_extracted + 1 }
  let is_valid := (validate_goalkeeper_data (gkValOf r)).isEmpty
  let st := if is_valid then st
            else { st with validation_errors := st.validation_errors + 1 }
  if pyTruthy r.team_season_id then
    let db' := upsert_goalkeeper_data db r
    (db', if gkNoData r then st
          else { st with records_updated := st.records_updated + 1 })
  else (db, { st with errors := st.errors + 1 })

/-! ### `extract_fbref_possession_full.py` -/

/-- `self.field_mappings`: FBref `data-stat` names to the 22 possession
columns. -/
def possFieldMappings : List (String × String) :=
  [("touches", "touches"),
   ("touches_def_pen_area", "touches_def_pen"),
   ("touches_def_3rd", "touches_def_3rd"),
   ("touches_mid_3rd", "touches_mid_3rd"),
   ("touches_att_3rd", "touches_att_3rd"),
   ("touches_att_pen_area", "touches_att_pen"),
   ("touches_live_ball", "touches_live"),
   ("take_ons", "take_ons_att"),
   ("take_ons_won", "take_ons_succ"),
   ("take_ons_won_pct", "take_ons_succ_pct"),
   ("take_ons_tackled", "take_ons_tkld"),
   ("take_ons_tackled_pct", "take_ons_tkld_pct"),
   ("carries", "carries"),
   ("carries_distance", "carries_total_distance"),
   ("carries_progressive_distance", "carries_progressive_distance"),
   ("progressive_carries", "carries_progressive"),
   ("carries_into_final_third", "carries_final_third"),
   ("carries_into_penalty_area", "carries_penalty_area"),
   ("miscontrols", "miscontrols"),
   ("dispossessed", "dispossessed"),
   ("passes_received", "passes_received"),
   ("progressive_passes_received", "passes_received_progressive")]

/-- The non-key columns of a possession record dict: `season_id` plus every
mapped column (`process_possession_data` sets all of them, possibly to
`None`). -/
def possColumns : List String :=
  "season_id" :: possFieldMappings.map Prod.snd

/-- The cell cleanup of `extract_possession_table`:
`if value in ['', '—', '-']: value = None`. -/
def possExtractVal (s : String) : Option String :=
  if s = "" ∨ s = "—" ∨ s = "-" then none else some s

/-- The value coercion of `process_possession_data`: a missing/empty cell is
`None`; a `pct` column with a `%` strips the sign and parses as float (not
divided by 100); other `pct` columns parse as float; non-`pct` values parse
as `int(float(v))` unless they contain a dot; any parse failure is `None`. -/
def possCoerce (db_field : String) (v : Option String) : Option Rat :=
  match v with
  | none => none
  | some s =>
      if s = "" then none
      else if strContains db_field "pct" && s.toList.contains '%' then
        pyFloat (String.mk (s.toList.filter (fun c => c != '%')))
      else if strContains db_field "pct" then pyFloat s
      else if s.toList.contains '.' then pyFloat s
      else (pyFloat s).map (fun q => ((ratTrunc q : Int) : Rat))

/-- One possession record handed to `upsert_possession_data`: the
`match_player_id` key plus the value of each non-key column. -/
structure PossRecord where
  match_player_id : String
  vals : String → Option Rat

/-- One stored row of `match_player_possession`. -/
structure PossRow where
  match_player_id : String
  vals : String → Option Rat

/-- `update_fields` of the possession update path: the non-key columns whose
new value is not `None`. -/
def possNonNull (r : PossRecord) : List String :=
  possColumns.filter (fun c => (r.vals c).isSome)

/-- The possession `UPDATE ... SET` merge: non-null columns overwritten,
everything else kept. -/
def possMergeRow (row : PossRow) (r : PossRecord) : PossRow :=
  { row with vals := fun c =>
      if c ∈ possColumns ∧ (r.vals c).isSome then r.vals c else row.vals c }

/-- The possession `INSERT` path: every record column is written, nulls
included. -/
def possInsertRow (r : PossRecord) : PossRow :=
  { match_player_id := r.match_player_id
    vals := fun c => if c ∈ possColumns then r.vals c else none }

/-- One record of the `upsert_possession_data` loop: update the matching row
per populated field when it exists (skipping the statement when every value
is null), else insert the full record. -/
def upsert_possession_step (db : List PossRow) (r : PossRecord) : List PossRow :=
  if db.any (fun row => row.match_player_id == r.match_player_id) then
    if (possNonNull r).isEmpty then db
    else db.map (fun row =>
      if row.match_player_id == r.match_player_id then possMergeRow row r else row)
  else db ++ [possInsertRow r]

/-- `upsert_possession_data` over a record batch. -/
def upsert_possession_data (db : List PossRow) (rs : List PossRecord) :
    List PossRow :=
  rs.foldl upsert_possession_step db

/-! ### `extract_tier1_data.py` -/

/-- `_parse_minute`: `None`/`''` is `None`; otherwise every `+` is removed
and the string stripped **before** the `split('+')`, so the split is over a
string that no longer contains a `+`; the surviving digits are parsed with
`int(float(...))`, any failure giving `None`. -/
def tier1_parse_minute (v : Option String) : Option Int :=
  match v with
  | none => none
  | some s =>
      if s = "" then none
      else
        let minute_str := trimChars (s.toList.filter (fun c => c != '+'))
        if minute_str ≠ [] then
          match splitOnChar '+' minute_str with
          | p :: _ => (pyFloat (String.mk p)).map ratTrunc
          | [] => none
        else none

/-- The identity caches `NWSLDataExtractor` loads at startup
(`self.cache['matches' | 'teams' | 'players']`; `matches` is a Lean keyword,
hence the `_ids` suffixes). -/
structure Tier1Cache where
  match_ids : List String
  team_ids : List String
  player_ids : List String
deriving DecidableEq, Repr

/-- The identifiers one goalkeeper record of the tier-1 extractor carries. -/
structure Tier1GkRecord where
  match_hex_id : String
  team_hex_id : String
  player_hex_id : String
  player_name : String
deriving DecidableEq, Repr

/-- One stored row of `match_goalkeeper_summary` (key columns). -/
structure Tier1GkRow where
  match_goalkeeper_id : String
  match_id : String
  player_id : String
  team_id : String
deriving DecidableEq, Repr

/-- Why `insert_goalkeeper_records` skipped a record. -/
inductive Tier1Skip where
  | matchMissing
  | teamMissing
  | playerMissing
  | alreadyExists
deriving DecidableEq, Repr

/-- The per-record body of `insert_goalkeeper_records`: a match, team or
player id absent from the cache logs a warning and skips the record (no
placeholder is created anywhere in this path); an existing
`(match_id, player_id, team_id)` row also skips; otherwise a row keyed by
`f"{match_hex_id}_{player_hex_id}"` is inserted. -/
def tier1_insert_gk_record (cache : Tier1Cache) (db : List Tier1GkRow)
    (r : Tier1GkRecord) : List Tier1GkRow × Option Tier1Skip :=
  if ¬ cache.match_ids.contains r.match_hex_id then (db, some .matchMissing)
  else if ¬ cache.team_ids.contains r.team_hex_id then (db, some .teamMissing)
  else if ¬ cache.player_ids.contains r.player_hex_id then (db, some .playerMissing)
  else if db.any (fun row =>
      row.match_id == r.match_hex_id && row.player_id == r.player_hex_id &&
      row.team_id == r.team_hex_id) then (db, some .alreadyExists)
  else
    (db ++ [{ match_goalkeeper_id := r.match_hex_id ++ "_" ++ r.player_hex_id
              match_id := r.match_hex_id
              player_id := r.player_hex_id
              team_id := r.team_hex_id }], none)

/-! ### Concrete test inputs used by the witnesses and counterexamples -/

/-- The spec's goalkeeping example row
`{SoTA: "5", GA: "1", Saves: "4", Save%: "80.0%"}`, keyed by the FBref
`data-stat` names the mapper reads. -/
def gkExampleRow : String → Option String := fun c =>
  if c = "gk_shots_on_target_against" then some "5"
  else if c = "gk_goals_against" then some "1"
  else if c = "gk_saves" then some "4"
  else if c = "gk_save_pct" then some "80.0%"
  else none

/-- The validation view of the example row after mapping. -/
def gkExampleData : GkValData :=
  { saves := gkMapRow gkExampleRow "saves"
    goals_against := gkMapRow gkExampleRow "goals_against"
    shots_on_target_against := gkMapRow gkExampleRow "shots_on_target_against"
    save_percentage := gkMapRow gkExampleRow "save_percentage"
    launched_completed := gkMapRow gkExampleRow "launched_completed"
    launched_attempted := gkMapRow gkExampleRow "launched_attempted"
    crosses_stopped := gkMapRow gkExampleRow "crosses_stopped"
    crosses_opposed := gkMapRow gkExampleRow "crosses_opposed" }

/-- A goalkeeper record violating the saves identity (3 + 1 ≠ 5), with a
team-season id so the writer would accept it. -/
def gkInvalidRecord : GkRecord :=
  { match_id := "m1", player_id := "p1", team_season_id := some "ts1"
    stats := fun c =>
      if c = "saves" then some 3
      else if c = "goals_against" then some 1
      else if c = "shots_on_target_against" then some 5
      else none }

/-- A stored goalkeeper row with two known-good fields. -/
def gkStoredRow : GkRow :=
  { match_id := "m1", player_id := "p1", team_season_id := some "ts1"
    stats := fun c =>
      if c = "saves" then some 2
      else if c = "goals_against" then some 9
      else none }

/-- A re-extracted record for the same match and player carrying only a new
`saves` value (every other field null). -/
def gkNewRecord : GkRecord :=
  { match_id := "m1", player_id := "p1", team_season_id := some "ts1"
    stats := fun c => if c = "saves" then some 4 else none }

/-- A stored possession row with two populated columns. -/
def possStoredRow : PossRow :=
  { match_player_id := "mp1"
    vals := fun c =>
      if c = "touches" then some 30
      else if c = "carries" then some 12
      else none }

/-- A possession record for the same `match_player_id` with one populated
column. -/
def possNewRecord : PossRecord :=
  { match_player_id := "mp1"
    vals := fun c => if c = "touches" then some 41 else none }

/-- The lineup entry of one extraction run for player `p` in match `m`. -/
def lineupEntryFirst : LineupEntry :=
  { lineup_id := "uuid-1", match_id := "m", player_id := some "p"
    player_name := "Ann Example", position := some "GK", is_starter := true
    team_season_id := some "ts" }

/-- The entry a second run over the identical source row produces: the same
natural key under a fresh surrogate `uuid4`. -/
def lineupEntrySecond : LineupEntry :=
  { lineupEntryFirst with lineup_id := "uuid-2" }

/-- A tier-1 cache knowing the match and the team but not the player. -/
def tier1CacheNoPlayer : Tier1Cache :=
  { match_ids := ["m1"], team_ids := ["t1"], player_ids := [] }

/-- A tier-1 goalkeeper record referencing the unknown player. -/
def tier1RecUnknownPlayer : Tier1GkRecord :=
  { match_hex_id := "m1", team_hex_id := "t1", player_hex_id := "p9"
    player_name := "Jane Doe" }

/-- An outfield-pass lineup holding goalkeeper `gk1`. -/
def lineupWithKeeper : List LineupEntry :=
  [{ lineup_id := "uuid-3", match_id := "m", player_id := some "gk1"
     player_name := "Kay Keeper", position := some "GK", is_starter := true
     team_season_id := some "ts" }]

/-- A keeper-table row for the same goalkeeper `gk1`, with an identifiable
caption. -/
def keeperRowDup : KeeperRow :=
  { player_id := some "gk1", player_name := "Kay Keeper"
    caption := some "Thorns Goalkeeper Stats", fresh_id := "uuid-4" }

/-! ### `extract_shot_data_complete.py` -/

/-- `parse_minute` of the complete shot extractor: empty input is `None`;
with a `+` the string splits and the parts add (`"90+7"` is `97`); without
one the string parses as an int; any parse failure is `None`. -/
def parse_minute (s : String) : Option Int :=
  if s = "" then none
  else
    let t := trimChars s.toList
    if t.contains '+' then
      match splitOnChar '+' t with
      | p0 :: p1 :: _ =>
          match pyInt (String.mk p0), pyInt (String.mk p1) with
          | some base, some added => some (base + added)
          | _, _ => none
      | _ => none
    else pyInt (String.mk t)

/-! ## Claims -/

/-- **C4** — counterexample: a player at ordinal position 15 credited with 75
minutes is **not** classified as a starter by `extract_lineup_from_html` (the
minutes override requires `player_count <= 14`), contradicting the claim's
"even when the player's ordinal position is outside the top 11 (e.g.,
ordinal position 15)". -/
theorem late_ordinal_majority_minutes_not_starter :
    is_starter 15 75 = false := by decide

/-- **C4** (amended): a player credited with zero minutes is classified as a
non-starter regardless of ordinal position, and a player credited with at
least 60 minutes is reclassified as a starter only up to ordinal position
14; position 15 and beyond fall back to the first-11 rule. -/
theorem starter_heuristic_amended (player_count minutes : Nat) :
    (minutes = 0 → is_starter player_count minutes = false) ∧
    (60 ≤ minutes → player_count ≤ 14 → is_starter player_count minutes = true) := by
  constructor
  · intro h
    simp [is_starter, h]
  · intro h60 h14
    have h0 : ¬ minutes = 0 := by omega
    simp [is_starter, h0, h60, h14]

/-- **C4** — witness: the amended heuristic at ordinal 12 with zero minutes
and at ordinal 14 with 75 minutes. -/
theorem starter_heuristic_amended_witness :
    is_starter 12 0 = false ∧ is_starter 14 75 = true :=
  ⟨(starter_heuristic_amended 12 0).1 rfl,
   (starter_heuristic_amended 14 75).2 (by decide) (by decide)⟩

/-- **C10** — the two stoppage-minute parsers evaluated: the complete shot
extractor's `parse_minute` returns `B+E` (`"90+7" ↦ 97`), both return `none`
for empty or unparseable input, and the parsers disagree on the same
stoppage-time string; but the tier-1 `_parse_minute` returns `452` on
`"45+2"` — the digit concatenation after stripping `+` — not the base minute
`45` its own comment promises. -/
theorem parse_minute_divergence_eval :
    parse_minute "90+7" = some 97 ∧
    parse_minute "45+2" = some 47 ∧
    parse_minute "" = none ∧
    parse_minute "abc" = none ∧
    tier1_parse_minute (some "45+2") = some 452 ∧
    tier1_parse_minute (some "45+2") ≠ some 45 ∧
    tier1_parse_minute none = none ∧
    tier1_parse_minute (some "") = none ∧
    tier1_parse_minute (some "abc") = none ∧
    tier1_parse_minute (some "45+2") ≠ parse_minute "45+2" := by
  have h452 : tier1_parse_minute (some "45+2") = some 452 := by
    simp [tier1_parse_minute, pyFloat, pyFloatCore, splitOnChar, trimChars,
      natValL, ratTrunc]
  refine ⟨by decide, by decide, rfl, by decide, h452, ?_, rfl, by decide,
    by decide, ?_⟩
  · rw [h452]; decide
  · rw [h452, show parse_minute "45+2" = some 47 from by decide]; decide

/-- **C8** — counterexample: `"saves"` is a count-type field, yet a
placeholder dash maps it to `none` ("no value"), not to `0`; the possession
mapper does the same for the count field `"touches"`. -/
theorem dash_count_field_maps_to_none_counterexample :
    gkMapRow (fun _ => some "—") "saves" = none ∧
    gkMapRow (fun _ => some "—") "saves" ≠ some 0 ∧
    possCoerce "touches" (possExtractVal "—") = none ∧
    possCoerce "touches" (possExtractVal "—") ≠ some 0 := by
  refine ⟨by decide, by decide, rfl, by decide⟩

/-- **C8** (amended): a row whose statistical fields are all empty or
placeholder dashes (`""`, `"—"`, `"-"`) produces a record in which **every**
field — ratio-type and count-type alike — takes the "no value" default
(`none`); zero is never substituted. -/
theorem dash_fields_coerce_to_no_value (s : String)
    (h : s = "" ∨ s = "—" ∨ s = "-") :
    clean_numeric_value s = none ∧ possExtractVal s = none ∧
    ∀ db_field : String, possCoerce db_field (possExtractVal s) = none := by
  rcases h with h | h | h <;> subst h
  · exact ⟨by decide, by decide,
      fun f => by rw [show possExtractVal "" = none from by decide]; simp [possCoerce]⟩
  · exact ⟨by decide, by decide,
      fun f => by rw [show possExtractVal "—" = none from by decide]; simp [possCoerce]⟩
  · exact ⟨by decide, by decide,
      fun f => by rw [show possExtractVal "-" = none from by decide]; simp [possCoerce]⟩

/-- **C8** — witness: the amended coercion at the em-dash placeholder. -/
theorem dash_fields_coerce_to_no_value_witness :
    clean_numeric_value "—" = none ∧ possExtractVal "—" = none ∧
    ∀ db_field : String, possCoerce db_field (possExtractVal "—") = none :=
  dash_fields_coerce_to_no_value "—" (Or.inr (Or.inl rfl))

/-- **C3** — counterexample: a goalkeeper record whose player id `"p9"` is
absent from the database cache is dropped by `insert_goalkeeper_records`
(nothing is persisted, only a warning is recorded), contradicting "a minimal
placeholder entity is created ... so the row is persisted". -/
theorem unknown_player_row_dropped_counterexample :
    tier1_insert_gk_record tier1CacheNoPlayer [] tier1RecUnknownPlayer
      = ([], some Tier1Skip.playerMissing) := by decide

/-- **C3** (amended): in the tier-1 goalkeeper inserter (and likewise the
passing extractor), a source row referencing a player id absent from the
database is **not** persisted and no placeholder entity is created: the
record is skipped and a warning logged. -/
theorem unknown_player_row_skipped_with_warning
    (cache : Tier1Cache) (db : List Tier1GkRow) (r : Tier1GkRecord)
    (hm : r.match_hex_id ∈ cache.match_ids)
    (ht : r.team_hex_id ∈ cache.team_ids)
    (hp : r.player_hex_id ∉ cache.player_ids) :
    tier1_insert_gk_record cache db r = (db, some Tier1Skip.playerMissing) := by
  simp [tier1_insert_gk_record, hm, ht, hp]

/-- **C3** — witness: the amended skip behaviour at the concrete unknown
player. -/
theorem unknown_player_row_skipped_with_warning_witness :
    tier1_insert_gk_record tier1CacheNoPlayer ([] : List Tier1GkRow)
      tier1RecUnknownPlayer = ([], some Tier1Skip.playerMissing) :=
  unknown_player_row_skipped_with_warning tier1CacheNoPlayer []
    tier1RecUnknownPlayer (by decide) (by decide) (by decide)

/-- The save-percentage block never emits the saves-identity tag. -/
lemma savesIdentity_not_mem_checkSavePct (d : GkValData) :
    GkIssue.savesIdentity ∉ gkCheckSavePct d := by
  unfold gkCheckSavePct
  split
  · split
    · split <;> simp
    · simp
  · simp

/-- The launched-passes block never emits the saves-identity tag. -/
lemma savesIdentity_not_mem_checkLaunched (d : GkValData) :
    GkIssue.savesIdentity ∉ gkCheckLaunched d := by
  unfold gkCheckLaunched
  split
  · split <;> simp
  · simp

/-- The crosses block never emits the saves-identity tag. -/
lemma savesIdentity_not_mem_checkCrosses (d : GkValData) :
    GkIssue.savesIdentity ∉ gkCheckCrosses d := by
  unfold gkCheckCrosses
  split
  · split <;> simp
  · simp

/-- **C5** — when saves, goals against and shots on target against are all
present, a saves-identity issue is reported iff
`|saves + goals_against - shots_on_target_against|` exceeds the `0.01`
tolerance; and the spec's example row maps to canonical fields
`5, 1, 4, 80.0` (percent sign stripped, not divided by 100) and passes
validation with no warning. -/
theorem saves_identity_validation_iff_and_example :
    (∀ (d : GkValData) (s g t : Rat),
        d.saves = some s → d.goals_against = some g →
        d.shots_on_target_against = some t →
        (GkIssue.savesIdentity ∈ validate_goalkeeper_data d ↔
          |s + g - t| > 1/100)) ∧
    (gkMapRow gkExampleRow "shots_on_target_against" = some 5 ∧
     gkMapRow gkExampleRow "goals_against" = some 1 ∧
     gkMapRow gkExampleRow "saves" = some 4 ∧
     gkMapRow gkExampleRow "save_percentage" = some 80 ∧
     validate_goalkeeper_data gkExampleData = []) := by
  constructor
  · intro d s g t hs hg ht
    have h1 : GkIssue.savesIdentity ∈ gkCheckSaves d ↔ |s + g - t| > 1/100 := by
      unfold gkCheckSaves
      rw [hs, hg, ht]
      split <;> simp_all
    unfold validate_goalkeeper_data
    simp [List.mem_append, savesIdentity_not_mem_checkSavePct d,
      savesIdentity_not_mem_checkLaunched d,
      savesIdentity_not_mem_checkCrosses d, h1]
  · refine ⟨by decide, by decide, by decide, ?_, ?_⟩
    · simp [gkMapRow, COLUMN_MAPPING, gkExampleRow, clean_numeric_value,
        pyFloat, pyFloatCore, splitOnChar, trimChars, natValL]
    · simp [validate_goalkeeper_data, gkCheckSaves, gkCheckSavePct,
        gkCheckLaunched, gkCheckCrosses, gkExampleData, gkMapRow,
        COLUMN_MAPPING, gkExampleRow, clean_numeric_value, pyFloat,
        pyFloatCore, splitOnChar, trimChars, natValL]
      norm_num

/-- **C5** — witness: the iff instantiated at the example's field values. -/
theorem saves_identity_validation_witness :
    GkIssue.savesIdentity ∈ validate_goalkeeper_data
      { saves := some 4, goals_against := some 1
        shots_on_target_against := some 5, save_percentage := some 80
        launched_completed := none, launched_attempted := none
        crosses_stopped := none, crosses_opposed := none } ↔
      |(4 : Rat) + 1 - 5| > 1/100 :=
  saves_identity_validation_iff_and_example.1 _ 4 1 5 rfl rfl rfl

/-- **C6** — a failed validation never blocks persistence: whenever a record
with a team-season id fails validation, the database is still exactly the
result of `upsert_goalkeeper_data`, and the violation is only counted as a
data-quality warning. -/
theorem validation_failure_does_not_block_upsert
    (db : List GkRow) (st : GkStats) (r : GkRecord)
    (hv : validate_goalkeeper_data (gkValOf r) ≠ [])
    (ht : pyTruthy r.team_season_id = true) :
    (process_gk_record db st r).1 = upsert_goalkeeper_data db r ∧
    (process_gk_record db st r).2.validation_errors = st.validation_errors + 1 := by
  have hne : (validate_goalkeeper_data (gkValOf r)).isEmpty = false := by
    rcases h : validate_goalkeeper_data (gkValOf r) with _ | ⟨a, l⟩
    · exact absurd h hv
    · rfl
  constructor <;> cases hnd : gkNoData r <;>
    simp [process_gk_record, hne, ht, hnd]

/-- **C6** — witness: the saves-identity-violating record is still upserted
and the violation counted. -/
theorem validation_failure_does_not_block_upsert_witness :
    (process_gk_record [] ⟨0, 0, 0, 0⟩ gkInvalidRecord).1
        = upsert_goalkeeper_data [] gkInvalidRecord ∧
    (process_gk_record [] ⟨0, 0, 0, 0⟩ gkInvalidRecord).2.validation_errors
        = 0 + 1 :=
  validation_failure_does_not_block_upsert [] ⟨0, 0, 0, 0⟩ gkInvalidRecord
    (by simp [validate_goalkeeper_data, gkCheckSaves, gkCheckSavePct,
         gkCheckLaunched, gkCheckCrosses, gkValOf, gkInvalidRecord]
        norm_num)
    (by decide)

/-- **C7** — when neither team's full lowercased name nor any of its words
longer than three characters occurs in a table's caption (the empty home
name included), `identify_team_from_caption` returns `None` and team
assignment falls back to positional order: the first table in document order
is the home side, every later one the away side. -/
theorem caption_mismatch_positional_fallback
    (c home away : String) (idx : Nat)
    (hH : lowerStr home = "" ∨ strContains (lowerStr c) (lowerStr home) = false)
    (hA : lowerStr away = "" ∨ strContains (lowerStr c) (lowerStr away) = false)
    (hHW : ∀ w ∈ pySplitWs (lowerStr home), 3 < w.length →
      strContains (lowerStr c) w = false)
    (hAW : ∀ w ∈ pySplitWs (lowerStr away), 3 < w.length →
      strContains (lowerStr c) w = false) :
    identify_team_from_caption c home away = none ∧
    resolve_table_team (some c) home away idx
      = (if idx = 0 then TeamType.home else TeamType.away) := by
  have c1 : ((lowerStr home != "") && strContains (lowerStr c) (lowerStr home))
      = false := by
    rcases hH with h | h <;> simp [h]
  have c2 : ((lowerStr away != "") && strContains (lowerStr c) (lowerStr away))
      = false := by
    rcases hA with h | h <;> simp [h]
  have c3 : (pySplitWs (lowerStr home)).any
      (fun w => decide (3 < w.length) && strContains (lowerStr c) w) = false := by
    rw [List.any_eq_false]
    intro w hw
    by_cases hl : 3 < w.length
    · simp [hl, hHW w hw hl]
    · simp [hl]
  have c4 : (pySplitWs (lowerStr away)).any
      (fun w => decide (3 < w.length) && strContains (lowerStr c) w) = false := by
    rw [List.any_eq_false]
    intro w hw
    by_cases hl : 3 < w.length
    · simp [hl, hAW w hw hl]
    · simp [hl]
  have hid : identify_team_from_caption c home away = none := by
    unfold identify_team_from_caption
    simp [c1, c2, c3, c4]
  exact ⟨hid, by simp [resolve_table_team, hid]⟩

/-- **C7** — witness: an anonymous caption with an empty home name resolves
the first table to the home side. -/
theorem caption_mismatch_positional_fallback_witness :
    identify_team_from_caption "Player Stats Table" "" "OL Reign" = none ∧
    resolve_table_team (some "Player Stats Table") "" "OL Reign" 0
      = (if 0 = 0 then TeamType.home else TeamType.away) :=
  caption_mismatch_positional_fallback "Player Stats Table" "" "OL Reign" 0
    (Or.inl (by decide)) (Or.inr (by decide)) (by decide) (by decide)

/-- **C1** — counterexample: `insert_lineups` conflicts only on the freshly
generated surrogate `lineup_id` (`uuid4`), so writing an extracted record and
then re-extracting the identical source row — which generates a new uuid —
and writing again stores a second row under the same natural key
`(match_id, player_id)`: one new row, a duplicate. -/
theorem insert_lineups_duplicates_natural_key :
    (insert_lineups (insert_lineups [] [lineupEntryFirst])
        [lineupEntrySecond]).length = 2 ∧
    (insert_lineups (insert_lineups [] [lineupEntryFirst])
        [lineupEntrySecond]).countP
      (fun r => lineupNaturalKey r == ("m", some "p")) = 2 ∧
    lineupNaturalKey lineupEntryFirst = lineupNaturalKey lineupEntrySecond := by
  decide

/-- `gkMergeRow` does not touch the key columns. -/
lemma gkKeyMatch_gkMergeRow (r : GkRecord) (row : GkRow) (r' : GkRecord) :
    gkKeyMatch r (gkMergeRow row r') = gkKeyMatch r row := rfl

/-- After an upsert that writes (some mapped column non-null), a row with the
record's natural key exists. -/
lemma upsert_goalkeeper_key_present (db : List GkRow) (r : GkRecord)
    (hnd : ¬ gkNoData r = true) :
    (upsert_goalkeeper_data db r).any (gkKeyMatch r) = true := by
  unfold upsert_goalkeeper_data
  rw [if_neg hnd]
  by_cases hex : db.any (gkKeyMatch r) = true
  · rw [if_pos hex, List.any_map]
    have hfun : (gkKeyMatch r ∘ fun row =>
        if gkKeyMatch r row then gkMergeRow row r else row) = gkKeyMatch r := by
      funext row
      by_cases h : gkKeyMatch r row = true
      · simp [Function.comp, h, gkKeyMatch_gkMergeRow]
      · simp [Function.comp, h]
    rw [hfun]
    exact hex
  · rw [if_neg hex, List.any_append]
    simp [gkKeyMatch, gkInsertRow]

/-- **C1** (amended): `upsert_goalkeeper_data` is idempotent per natural key —
re-writing a record for an already-written `(match_id, player_id)` adds zero
rows and changes at most the existing row's fields — whereas `insert_lineups`
is not idempotent (its conflict target is the per-extraction surrogate
`lineup_id`, so a re-extracted row is stored twice; see the counterexample). -/
theorem upsert_goalkeeper_idempotent_per_natural_key
    (db : List GkRow) (r : GkRecord) :
    (upsert_goalkeeper_data (upsert_goalkeeper_data db r) r).length
      = (upsert_goalkeeper_data db r).length ∧
    (upsert_goalkeeper_data (upsert_goalkeeper_data db r) r).map
        (fun row => (row.match_id, row.player_id))
      = (upsert_goalkeeper_data db r).map
        (fun row => (row.match_id, row.player_id)) := by
  by_cases hnd : gkNoData r = true
  · constructor <;> simp [upsert_goalkeeper_data, hnd]
  · have hkey := upsert_goalkeeper_key_present db r hnd
    have houter : upsert_goalkeeper_data (upsert_goalkeeper_data db r) r
        = (upsert_goalkeeper_data db r).map
          (fun row => if gkKeyMatch r row then gkMergeRow row r else row) := by
      conv_lhs => rw [upsert_goalkeeper_data]
      rw [if_neg hnd, if_pos hkey]
    rw [houter]
    constructor
    · exact List.length_map _ _
    · rw [List.map_map]
      refine List.map_congr_left ?_
      intro row _
      by_cases h : gkKeyMatch r row = true <;> simp [Function.comp, h, gkMergeRow]

/-- **C2** — when an upsert targets an already-existing row (goalkeeper and
possession writers alike), zero rows are added and the stored row is merged
per populated field: every mapped column carrying a non-null value in the new
record is overwritten, every column that is null in the new record — and
every unmapped column — keeps its previously stored value. -/
theorem upsert_overwrites_only_populated_fields :
    (∀ (db : List GkRow) (r : GkRecord) (i : Nat) (row : GkRow),
      db[i]? = some row → gkKeyMatch r row = true →
      (upsert_goalkeeper_data db r).length = db.length ∧
      ∃ row', (upsert_goalkeeper_data db r)[i]? = some row' ∧
        (∀ c v, r.stats c = some v → c ∈ gkColumns → row'.stats c = some v) ∧
        (∀ c, r.stats c = none → row'.stats c = row.stats c) ∧
        (∀ c, c ∉ gkColumns → row'.stats c = row.stats c)) ∧
    (∀ (db : List PossRow) (r : PossRecord) (i : Nat) (row : PossRow),
      db[i]? = some row → row.match_player_id = r.match_player_id →
      (upsert_possession_step db r).length = db.length ∧
      ∃ row', (upsert_possession_step db r)[i]? = some row' ∧
        (∀ c v, r.vals c = some v → c ∈ possColumns → row'.vals c = some v) ∧
        (∀ c, r.vals c = none → row'.vals c = row.vals c) ∧
        (∀ c, c ∉ possColumns → row'.vals c = row.vals c)) := by
  constructor
  · intro db r i row hget hkey
    have hmem : row ∈ db := List.getElem?_mem hget
    by_cases hnd : gkNoData r = true
    · have hdb : upsert_goalkeeper_data db r = db := by
        simp [upsert_goalkeeper_data, hnd]
      refine ⟨by rw [hdb], row, by rw [hdb, hget], ?_, fun c _ => rfl,
        fun c _ => rfl⟩
      intro c v hcv hc
      exfalso
      have hall := List.all_eq_true.mp hnd c hc
      rw [hcv] at hall
      exact absurd hall (by simp)
    · have hex : db.any (gkKeyMatch r) = true :=
        List.any_eq_true.mpr ⟨row, hmem, hkey⟩
      have hdb : upsert_goalkeeper_data db r = db.map
          (fun row => if gkKeyMatch r row then gkMergeRow row r else row) := by
        unfold upsert_goalkeeper_data
        rw [if_neg hnd, if_pos hex]
      refine ⟨by rw [hdb]; exact List.length_map _ _, gkMergeRow row r, ?_,
        ?_, ?_, ?_⟩
      · rw [hdb, List.getElem?_map, hget]
        simp [hkey]
      · intro c v hcv hc
        simp [gkMergeRow, hc, hcv]
      · intro c hcv
        simp [gkMergeRow, hcv]
      · intro c hc
        simp [gkMergeRow, hc]
  · intro db r i row hget hkeq
    have hmem : row ∈ db := List.getElem?_mem hget
    have hex : db.any (fun row => row.match_player_id == r.match_player_id)
        = true :=
      List.any_eq_true.mpr ⟨row, hmem, by simp [hkeq]⟩
    by_cases hnn : (possNonNull r).isEmpty = true
    · have hdb : upsert_possession_step db r = db := by
        unfold upsert_possession_step
        rw [if_pos hex, if_pos hnn]
      refine ⟨by rw [hdb], row, by rw [hdb, hget], ?_, fun c _ => rfl,
        fun c _ => rfl⟩
      intro c v hcv hc
      exfalso
      have : c ∈ possNonNull r :=
        List.mem_filter.mpr ⟨hc, by simp [hcv]⟩
      rw [List.isEmpty_iff.mp hnn] at this
      exact absurd this (List.not_mem_nil c)
    · have hdb : upsert_possession_step db r = db.map
          (fun row => if row.match_player_id == r.match_player_id
                      then possMergeRow row r else row) := by
        unfold upsert_possession_step
        rw [if_pos hex, if_neg (by simp [hnn])]
      refine ⟨by rw [hdb]; exact List.length_map _ _, possMergeRow row r, ?_,
        ?_, ?_, ?_⟩
      · rw [hdb, List.getElem?_map, hget]
        simp [hkeq]
      · intro c v hcv hc
        simp [possMergeRow, hc, hcv]
      · intro c hcv
        simp [possMergeRow, hcv]
      · intro c hc
        simp [possMergeRow, hc]

/-- **C2** — witness: merging a re-extracted goalkeeper record carrying only
a new `saves` value into a stored row keeps the stored `goals_against`. -/
theorem upsert_overwrites_only_populated_fields_witness :
    (upsert_goalkeeper_data [gkStoredRow] gkNewRecord).length = 1 ∧
    ∃ row', (upsert_goalkeeper_data [gkStoredRow] gkNewRecord)[0]? = some row' ∧
      (∀ c v, gkNewRecord.stats c = some v → c ∈ gkColumns →
        row'.stats c = some v) ∧
      (∀ c, gkNewRecord.stats c = none → row'.stats c = gkStoredRow.stats c) ∧
      (∀ c, c ∉ gkColumns → row'.stats c = gkStoredRow.stats c) :=
  upsert_overwrites_only_populated_fields.1 [gkStoredRow] gkNewRecord 0
    gkStoredRow rfl (by decide)

/-- Shape of one keeper-pass step: either the list is returned unchanged, or
the row's player id is new to the list and exactly one entry carrying that id
is appended. -/
lemma keeper_step_shape (mid home away : String) (hts ats : Option String)
    (l : List LineupEntry) (row : KeeperRow) :
    keeper_step mid home away hts ats l row = l ∨
    ∃ pid, row.player_id = some pid ∧
      l.any (fun e => e.player_id == some pid) = false ∧
      ∃ e, e.player_id = some pid ∧
        keeper_step mid home away hts ats l row = l ++ [e] := by
  unfold keeper_step
  rcases hpid : row.player_id with _ | pid
  · exact Or.inl rfl
  · by_cases hdup : l.any (fun e => e.player_id == some pid) = true
    · simp [hdup]
    · have hdup' : l.any (fun e => e.player_id == some pid) = false := by
        revert hdup
        cases l.any (fun e => e.player_id == some pid) <;> simp
      rcases hteam : row.caption.bind
          (fun c => identify_team_from_caption c home away) with _ | tt
      · simp [hdup', hteam]
      · refine Or.inr ⟨pid, rfl, hdup', ?_⟩
        simp only [hdup', hteam, Bool.false_eq_true, if_false]
        exact ⟨_, rfl, rfl⟩

/-- A keeper-pass step never removes a matching entry. -/
lemma keeper_step_any_mono (mid home away : String) (hts ats : Option String)
    (l : List LineupEntry) (row : KeeperRow) (p : LineupEntry → Bool)
    (h : l.any p = true) :
    (keeper_step mid home away hts ats l row).any p = true := by
  rcases keeper_step_shape mid home away hts ats l row with heq | ⟨_, _, _, e, _, heq⟩
  · rw [heq]; exact h
  · rw [heq, List.any_append, h]; rfl

/-- A keeper-pass step adds no entry for a player id already in the list. -/
lemma keeper_step_countP_eq (mid home away : String) (hts ats : Option String)
    (l : List LineupEntry) (row : KeeperRow) (pid : String)
    (h : l.any (fun e => e.player_id == some pid) = true) :
    (keeper_step mid home away hts ats l row).countP
        (fun e => e.player_id == some pid)
      = l.countP (fun e => e.player_id == some pid) := by
  rcases keeper_step_shape mid home away hts ats l row with heq |
    ⟨q, hq, hdupq, e, he, heq⟩
  · rw [heq]
  · rw [heq, List.countP_append]
    have hqp : q ≠ pid := by
      intro hqp
      subst hqp
      rw [h] at hdupq
      exact absurd hdupq (by simp)
    simp [List.countP_cons, he, hqp]

/-- A keeper-pass step adds at most one entry for any player id. -/
lemma keeper_step_countP_le (mid home away : String) (hts ats : Option String)
    (l : List LineupEntry) (row : KeeperRow) (pid : String) :
    (keeper_step mid home away hts ats l row).countP
        (fun e => e.player_id == some pid)
      ≤ max (l.countP (fun e => e.player_id == some pid)) 1 := by
  rcases keeper_step_shape mid home away hts ats l row with heq |
    ⟨q, hq, hdupq, e, he, heq⟩
  · rw [heq]; exact le_max_left _ _
  · rw [heq, List.countP_append]
    by_cases hqp : q = pid
    · subst hqp
      have h0 : l.countP (fun e => e.player_id == some q) = 0 := by
        rw [List.countP_eq_zero]
        intro a ha
        exact (List.any_eq_false.mp hdupq) a ha
      rw [h0]
      simp [List.countP_cons, he]
    · simp [List.countP_cons, he, hqp]

/-- **C9** — the goalkeeper-table pass de-duplicates by player identifier:
for a player id already present in the lineup list built from the outfield
tables the pass adds no entry at all, and for any player id it produces at
most one entry beyond what the outfield list already held. -/
theorem keeper_pass_never_duplicates_player_id
    (mid home away : String) (hts ats : Option String)
    (lineups : List LineupEntry) (rows : List KeeperRow) (pid : String) :
    (lineups.any (fun e => e.player_id == some pid) = true →
      (keeper_pass mid home away hts ats lineups rows).countP
          (fun e => e.player_id == some pid)
        = lineups.countP (fun e => e.player_id == some pid)) ∧
    (keeper_pass mid home away hts ats lineups rows).countP
        (fun e => e.player_id == some pid)
      ≤ max (lineups.countP (fun e => e.player_id == some pid)) 1 := by
  induction rows generalizing lineups with
  | nil => exact ⟨fun _ => rfl, le_max_left _ _⟩
  | cons row rows ih =>
      have hpass : keeper_pass mid home away hts ats lineups (row :: rows)
          = keeper_pass mid home away hts ats
              (keeper_step mid home away hts ats lineups row) rows := rfl
      constructor
      · intro h
        rw [hpass,
          (ih (keeper_step mid home away hts ats lineups row)).1
            (keeper_step_any_mono mid home away hts ats lineups row _ h),
          keeper_step_countP_eq mid home away hts ats lineups row pid h]
      · rw [hpass]
        calc (keeper_pass mid home away hts ats
                (keeper_step mid home away hts ats lineups row) rows).countP
              (fun e => e.player_id == some pid)
            ≤ max ((keeper_step mid home away hts ats lineups row).countP
                (fun e => e.player_id == some pid)) 1 :=
              (ih (keeper_step mid home away hts ats lineups row)).2
          _ ≤ max (max (lineups.countP (fun e => e.player_id == some pid)) 1) 1 :=
              max_le_max_right 1
                (keeper_step_countP_le mid home away hts ats lineups row pid)
          _ = max (lineups.countP (fun e => e.player_id == some pid)) 1 := by
              rw [max_assoc, max_self]

/-- **C9** — witness: a keeper-table row for goalkeeper `gk1`, who already
appears in the outfield-pass lineup, adds no entry. -/
theorem keeper_pass_never_duplicates_player_id_witness :
    (keeper_pass "m" "Portland Thorns" "OL Reign" (some "ts") (some "ts2")
        lineupWithKeeper [keeperRowDup]).countP
      (fun e => e.player_id == some "gk1")
      = lineupWithKeeper.countP (fun e => e.player_id == some "gk1") :=
  (keeper_pass_never_duplicates_player_id "m" "Portland Thorns" "OL Reign"
    (some "ts") (some "ts2") lineupWithKeeper [keeperRowDup] "gk1").1 (by decide)

end NwslDb
